import Mathlib

/-!
Shallow embedding of the GDS (GPUDirect Storage) HDF5 virtual file driver
(`src/H5FDgds.c`), covering the chunk partitioner, the worker streaming
loops, the POSIX fallback read/write loops, the device/host dispatch in
`H5FD_gds_read` / `H5FD_gds_write`, `H5FD_gds_truncate`, `H5FD_gds_close`,
`H5FD_gds_set_eoa` / `H5FD_gds_get_eof`, and the buffer classifier
`is_device_pointer`.  The embedding takes the configuration in which the
driver's interesting code is live: `H5_GDS_SUPPORT` and `H5_HAVE_PREADWRITE`
defined, non-Windows, 64-bit `haddr_t`/`size_t`/`HDoff_t`, 32-bit
`int`/`unsigned`.  External collaborators (POSIX pread/pwrite/ftruncate/close,
the cuFile calls, the CUDA attribute query) are modelled by their documented
contracts, with their outcomes passed in as explicit parameters.
-/

namespace H5FDgds

/-- Byte-addressed memory contents: a host buffer, a device buffer, or the
backing file, as a total map from byte offset to byte value. -/
abbrev Bytes := Nat → Nat

/-- Sentinel for an undefined address: `HADDR_UNDEF = (haddr_t)(-1)`, i.e.
2^64 - 1 on a 64-bit `haddr_t` (referenced by the source at lines 72, 525,
1059, 1243, 1311). -/
def HADDR_UNDEF : Nat := 18446744073709551615

/-- Success return code of `herr_t` functions. -/
def SUCCEED : Int := 0

/-- Failure return code of `herr_t` functions. -/
def FAIL : Int := -1

/-- Largest representable file offset: `MAXADDR` of `H5FDgds.c` line 208,
`((haddr_t)1 << 63) - 1` for an 8-byte `HDoff_t`. -/
def MAXADDR : Nat := 9223372036854775807

/-- Check `ADDR_OVERFLOW(A)` of line 209: the address is `HADDR_UNDEF` or has
a bit outside `MAXADDR` (bit 63 for a 64-bit `haddr_t`). -/
def ADDR_OVERFLOW (a : Nat) : Bool := a == HADDR_UNDEF || a.testBit 63

/-- Check `SIZE_OVERFLOW(Z)` of line 210: the size has a bit outside
`MAXADDR`. -/
def SIZE_OVERFLOW (z : Nat) : Bool := z.testBit 63

/-- Reinterpretation of a 64-bit unsigned value as the signed `HDoff_t`. -/
def toHDoff (n : Nat) : Int :=
  if n % 18446744073709551616 < 9223372036854775808 then
    ((n % 18446744073709551616 : Nat) : Int)
  else ((n % 18446744073709551616 : Nat) : Int) - 18446744073709551616

/-- Check `REGION_OVERFLOW(A,Z)` of lines 211-213: address overflow, size
overflow, wrap-around to `HADDR_UNDEF`, or sign change of the end offset. -/
def REGION_OVERFLOW (a z : Nat) : Bool :=
  ADDR_OVERFLOW a || SIZE_OVERFLOW z ||
    (a + z) % 18446744073709551616 == HADDR_UNDEF ||
    decide (toHDoff (a + z) < toHDoff a)

/-- Check `H5F_addr_defined(X)`, i.e. `X != HADDR_UNDEF`.  Modelled from the
spec: the macro lives in `H5Fprivate.h`, not under `src/`; the spec calls an
undefined address an argument error. -/
def H5F_addr_defined (a : Nat) : Bool := a != HADDR_UNDEF

/-- Last-operation tag of the handle (`H5FD_file_op_t`). -/
inductive FileOp where
  | OP_UNKNOWN
  | OP_READ
  | OP_WRITE
deriving DecidableEq, Repr

/-- State of one open driver handle (`H5FD_gds_t`, lines 75-131), restricted
to the fields the read/write/truncate/eoa/eof operations read or write.  The
two file descriptors, the cuFile handle and the identity fields are resources
whose outcomes are modelled as explicit parameters of the operations. -/
structure H5FD_gds_t where
  eoa : Nat
  eof : Nat
  pos : Nat
  op : FileOp
  num_io_threads : Int
  io_block_size : Nat
deriving DecidableEq, Repr

/-- Effective thread count: lines 939-941 (read) and 1127-1129 (write) reduce
`io_threads` so that each thread accesses at least one 4K page:
`if (1 + (size-1)/4096 < (unsigned)io_threads) io_threads = 1 + (size-1)/4096`.
The left-hand side is computed in the full 64-bit `size_t`. -/
def effThreads (size n : Nat) : Nat :=
  if 1 + (size - 1) / 4096 < n then 1 + (size - 1) / 4096 else n

/-- Per-worker chunk length, lines 946 and 1134:
`io_chunk = (unsigned)size / (unsigned)io_threads`.  The cast of the 64-bit
`size_t` to the 32-bit `unsigned` truncates `size` modulo 2^32. -/
def io_chunk (size n : Nat) : Nat := size % 4294967296 / effThreads size n

/-- Remainder assigned to the last worker, lines 947 and 1135:
`io_chunk_rem = (unsigned)size % (unsigned)io_threads`. -/
def io_chunk_rem (size n : Nat) : Nat := size % 4294967296 % effThreads size n

/-- Ephemeral per-worker transfer descriptor (the `offset`, `devPtr_offset`
and `size` fields of `thread_data_t`, lines 47-58). -/
structure TransferChunk where
  fileOffset : Nat
  devOffset : Nat
  len : Nat
deriving DecidableEq, Repr

/-- Chunk partition of lines 949-961 (read) and 1137-1149 (write): worker `ii`
gets file offset `offset + ii*io_chunk`, device offset `ii*io_chunk` and
length `io_chunk`, except the last worker whose length is
`io_chunk + io_chunk_rem`. -/
def gdsPartition (addr size n : Nat) : List TransferChunk :=
  (List.range (effThreads size n)).map fun ii =>
    { fileOffset := addr + ii * io_chunk size n
      devOffset := ii * io_chunk size n
      len := if ii = effThreads size n - 1 then io_chunk size n + io_chunk_rem size n
             else io_chunk size n }

/-- Effect of one successful bounded transfer call (`cuFileRead` or
`cuFileWrite`) on its destination memory: copy `n` bytes from `src` starting
at `srcOff` into `dst` starting at `dstOff`. -/
def copyRange (src dst : Bytes) (srcOff dstOff n : Nat) : Bytes :=
  fun a => if dstOff ≤ a ∧ a < dstOff + n then src (srcOff + (a - dstOff)) else dst a

/-- Worker streaming loop shared by `read_thread_fn` (lines 144-156) and
`write_thread_fn` (lines 171-183): while `size > block_size`, transfer
`block_size` bytes and advance both offsets; otherwise transfer the remaining
`size` bytes and stop.  `fuel` bounds the number of iterations; `fuel = size`
suffices whenever `block ≥ 1` (with `block = 0` and `size > 0` the source
loops forever, which the fuel-exhausted branch truncates). -/
def workerLoopF : Nat → Bytes → Bytes → Nat → Nat → Nat → Nat → Bytes
  | 0, _, dst, _, _, _, _ => dst
  | fuel + 1, src, dst, srcOff, dstOff, size, block =>
    if size = 0 then dst
    else if block < size then
      workerLoopF fuel src (copyRange src dst srcOff dstOff block)
        (srcOff + block) (dstOff + block) (size - block) block
    else copyRange src dst srcOff dstOff size

/-- Worker streaming loop with the canonical fuel. -/
def workerLoop (src dst : Bytes) (srcOff dstOff size block : Nat) : Bytes :=
  workerLoopF size src dst srcOff dstOff size block

/-- Multi-worker device read, lines 935-973: partition the request and run one
`read_thread_fn` worker per chunk.  Workers own disjoint device ranges, so the
parallel fan-out equals this sequential fold.  Returns the new device buffer. -/
def gdsDeviceRead (disk dev : Bytes) (addr size n block : Nat) : Bytes :=
  (gdsPartition addr size n).foldl
    (fun d c => workerLoop disk d c.fileOffset c.devOffset c.len block) dev

/-- Multi-worker device write, lines 1123-1161: partition the request and run
one `write_thread_fn` worker per chunk.  Workers own disjoint file ranges, so
the parallel fan-out equals this sequential fold.  Returns the new disk. -/
def gdsDeviceWrite (disk dev : Bytes) (addr size n block : Nat) : Bytes :=
  (gdsPartition addr size n).foldl
    (fun d c => workerLoop dev d c.devOffset c.fileOffset c.len block) disk

/-- Platform bound on a single POSIX I/O call, `H5_POSIX_MAX_IO_BYTES`
(`SSIZET_MAX` on POSIX systems). -/
def H5_POSIX_MAX_IO_BYTES : Nat := 9223372036854775807

/-- Number of bytes a successful `HDpread(fd, buf, n, addr)` returns on a
regular file of size `fsize`: up to `n` bytes from offset `addr`, zero at or
past end of file. -/
def preadModel (fsize addr n : Nat) : Nat := min n (fsize - addr)

/-- Result of the POSIX fallback read loop: the `herr_t`-style outcome, the
contents of the caller's buffer, and the final value of `addr`. -/
structure PosixRdRes where
  ret : Int
  buf : Bytes
  addr : Nat

/-- POSIX fallback read loop of `H5FD_gds_read`, lines 1003-1047: sub-reads of
at most `H5_POSIX_MAX_IO_BYTES` bytes; a sub-read error (injected as `errAt =
some idx`, after the transparent `EINTR` retries) fails the call; a zero-byte
sub-read zero-fills the remaining `size` bytes of the buffer and breaks out;
otherwise buffer, `addr` and remaining `size` advance by the bytes read.
`buf` is indexed from the start of the caller's buffer via `bufPos`. -/
def posixReadLoop (fsize : Nat) (disk : Bytes) (errAt : Option Nat)
    (idx : Nat) (buf : Bytes) (bufPos addr size : Nat) : PosixRdRes :=
  if hs : size = 0 then ⟨SUCCEED, buf, addr⟩
  else if errAt = some idx then ⟨FAIL, buf, addr⟩
  else if hr : preadModel fsize addr (min size H5_POSIX_MAX_IO_BYTES) = 0 then
    ⟨SUCCEED, fun i => if bufPos ≤ i ∧ i < bufPos + size then 0 else buf i, addr⟩
  else
    posixReadLoop fsize disk errAt (idx + 1)
      (fun i =>
        if bufPos ≤ i ∧ i < bufPos + preadModel fsize addr (min size H5_POSIX_MAX_IO_BYTES)
        then disk (addr + (i - bufPos)) else buf i)
      (bufPos + preadModel fsize addr (min size H5_POSIX_MAX_IO_BYTES))
      (addr + preadModel fsize addr (min size H5_POSIX_MAX_IO_BYTES))
      (size - preadModel fsize addr (min size H5_POSIX_MAX_IO_BYTES))
termination_by size
decreasing_by exact Nat.sub_lt (Nat.pos_of_ne_zero hs) (Nat.pos_of_ne_zero hr)

/-- Result of the POSIX fallback write loop: outcome, new disk contents, and
the final value of `addr`. -/
structure PosixWrRes where
  ret : Int
  disk : Bytes
  addr : Nat

/-- POSIX fallback write loop of `H5FD_gds_write`, lines 1191-1229: sub-writes
of at most `H5_POSIX_MAX_IO_BYTES` bytes; a sub-write error (injected as
`errAt = some idx`, after the transparent `EINTR` retries) fails the call;
otherwise `HDpwrite` writes the requested bytes and buffer, `addr` and
remaining `size` advance accordingly. -/
def posixWriteLoop (errAt : Option Nat) (idx : Nat) (disk buf : Bytes)
    (bufPos addr size : Nat) : PosixWrRes :=
  if hs : size = 0 then ⟨SUCCEED, disk, addr⟩
  else if errAt = some idx then ⟨FAIL, disk, addr⟩
  else
    posixWriteLoop errAt (idx + 1)
      (fun a =>
        if addr ≤ a ∧ a < addr + min size H5_POSIX_MAX_IO_BYTES
        then buf (bufPos + (a - addr)) else disk a)
      buf
      (bufPos + min size H5_POSIX_MAX_IO_BYTES)
      (addr + min size H5_POSIX_MAX_IO_BYTES)
      (size - min size H5_POSIX_MAX_IO_BYTES)
termination_by size
decreasing_by simp [H5_POSIX_MAX_IO_BYTES]; omega

/-- Outcomes of the external calls a read/write may perform: the buffer
classifier's verdict, the `cuFileBufRegister` / `cuFileBufDeregister`
outcomes, and an optional failing sub-call index for the POSIX loops. -/
structure GdsEnv where
  isDev : Bool
  regOk : Bool
  deregOk : Bool
  errAt : Option Nat

/-- Reset of the cached file I/O information in the shared `done:` epilogue of
`H5FD_gds_read` / `H5FD_gds_write` (lines 1056-1061 and 1240-1245): on a
negative return value, `pos` becomes `HADDR_UNDEF` and `op` becomes
`OP_UNKNOWN`. -/
def gdsFinish (r : Int) (f : H5FD_gds_t) : H5FD_gds_t :=
  if r < 0 then { f with pos := HADDR_UNDEF, op := .OP_UNKNOWN } else f

/-- Result of a modelled `H5FD_gds_read`: return code, handle state, device
buffer and host buffer contents. -/
structure RdOut where
  ret : Int
  file : H5FD_gds_t
  dev : Bytes
  host : Bytes

/-- Device-branch transfer of `H5FD_gds_read`: the multi-worker chunked
transfer when `io_threads > 0` (lines 935-973), otherwise one bulk
`cuFileRead` of the full request (line 976). -/
def gdsDevReadBuf (f : H5FD_gds_t) (disk dev : Bytes) (addr size : Nat) : Bytes :=
  if 0 < f.num_io_threads then
    gdsDeviceRead disk dev addr size f.num_io_threads.toNat f.io_block_size
  else copyRange disk dev addr 0 size

/-- Device-branch transfer of `H5FD_gds_write`: the multi-worker chunked
transfer when `io_threads > 0` (lines 1123-1161), otherwise one bulk
`cuFileWrite` of the full request (line 1164). -/
def gdsDevWriteDisk (f : H5FD_gds_t) (disk buf : Bytes) (addr size : Nat) : Bytes :=
  if 0 < f.num_io_threads then
    gdsDeviceWrite disk buf addr size f.num_io_threads.toNat f.io_block_size
  else copyRange buf disk 0 addr size

/-- Body of `H5FD_gds_read` (lines 895-1064) before the `done:` epilogue.
Argument checks first; on a device-resident buffer, register it (a register
or deregister failure runs `HGOTO_ERROR` with return value `NULL`, which is
`0 = SUCCEED` in this `herr_t` function), then the device-branch transfer;
the device branch does not touch `pos`/`op`.  On a host buffer, the POSIX
fallback loop runs and on success `pos`/`op` are updated (lines 1049-1051 sit
inside the `else`). -/
def gdsReadCore (f : H5FD_gds_t) (disk : Bytes) (fsize : Nat) (dev host : Bytes)
    (e : GdsEnv) (addr size : Nat) : RdOut :=
  if H5F_addr_defined addr = false then ⟨FAIL, f, dev, host⟩
  else if REGION_OVERFLOW addr size then ⟨FAIL, f, dev, host⟩
  else if e.isDev then
    if e.regOk = false then ⟨0, f, dev, host⟩
    else if e.deregOk = false then ⟨0, f, gdsDevReadBuf f disk dev addr size, host⟩
    else ⟨SUCCEED, f, gdsDevReadBuf f disk dev addr size, host⟩
  else if (posixReadLoop fsize disk e.errAt 0 host 0 addr size).ret < 0 then
    ⟨FAIL, f, dev, (posixReadLoop fsize disk e.errAt 0 host 0 addr size).buf⟩
  else
    ⟨SUCCEED,
      { f with pos := (posixReadLoop fsize disk e.errAt 0 host 0 addr size).addr,
               op := .OP_READ },
      dev, (posixReadLoop fsize disk e.errAt 0 host 0 addr size).buf⟩

/-- Model of `H5FD_gds_read`: the core body followed by the `done:` epilogue. -/
def H5FD_gds_read_model (f : H5FD_gds_t) (disk : Bytes) (fsize : Nat)
    (dev host : Bytes) (e : GdsEnv) (addr size : Nat) : RdOut :=
  { gdsReadCore f disk fsize dev host e addr size with
    file := gdsFinish (gdsReadCore f disk fsize dev host e addr size).ret
      (gdsReadCore f disk fsize dev host e addr size).file }

/-- Result of a modelled `H5FD_gds_write`: return code, handle state and disk
contents. -/
structure WrOut where
  ret : Int
  file : H5FD_gds_t
  disk : Bytes

/-- Body of `H5FD_gds_write` (lines 1083-1248) before the `done:` epilogue.
Mirrors `gdsReadCore`; on the host path, success updates `pos`/`op` and raises
`eof` when the new cursor exceeds it (lines 1231-1235, inside the `else`). -/
def gdsWriteCore (f : H5FD_gds_t) (disk buf : Bytes) (e : GdsEnv)
    (addr size : Nat) : WrOut :=
  if H5F_addr_defined addr = false then ⟨FAIL, f, disk⟩
  else if REGION_OVERFLOW addr size then ⟨FAIL, f, disk⟩
  else if e.isDev then
    if e.regOk = false then ⟨0, f, disk⟩
    else if e.deregOk = false then ⟨0, f, gdsDevWriteDisk f disk buf addr size⟩
    else ⟨SUCCEED, f, gdsDevWriteDisk f disk buf addr size⟩
  else if (posixWriteLoop e.errAt 0 disk buf 0 addr size).ret < 0 then
    ⟨FAIL, f, (posixWriteLoop e.errAt 0 disk buf 0 addr size).disk⟩
  else
    ⟨SUCCEED,
      { f with pos := (posixWriteLoop e.errAt 0 disk buf 0 addr size).addr,
               op := .OP_WRITE,
               eof := if f.eof < (posixWriteLoop e.errAt 0 disk buf 0 addr size).addr
                      then (posixWriteLoop e.errAt 0 disk buf 0 addr size).addr
                      else f.eof },
      (posixWriteLoop e.errAt 0 disk buf 0 addr size).disk⟩

/-- Model of `H5FD_gds_write`: the core body followed by the `done:`
epilogue. -/
def H5FD_gds_write_model (f : H5FD_gds_t) (disk buf : Bytes) (e : GdsEnv)
    (addr size : Nat) : WrOut :=
  { gdsWriteCore f disk buf e addr size with
    file := gdsFinish (gdsWriteCore f disk buf e addr size).ret
      (gdsWriteCore f disk buf e addr size).file }

/-- Model of `H5FD_gds_set_eoa` (lines 793-803): store the new allocated-end
marker; cannot fail. -/
def H5FD_gds_set_eoa_model (f : H5FD_gds_t) (addr : Nat) : H5FD_gds_t :=
  { f with eoa := addr }

/-- Model of `H5FD_gds_get_eof` (lines 821-829): return the physical-end
marker. -/
def H5FD_gds_get_eof_model (f : H5FD_gds_t) : Nat := f.eof

/-- Model of `H5FD_gds_get_eoa` (lines 768-776): return the allocated-end
marker. -/
def H5FD_gds_get_eoa_model (f : H5FD_gds_t) : Nat := f.eoa

/-- Result of a modelled `H5FD_gds_truncate`: return code, handle state, size
of the backing file, and whether the resize syscall was issued. -/
structure TruncOut where
  ret : Int
  file : H5FD_gds_t
  diskSize : Nat
  ftruncCalled : Bool
deriving DecidableEq, Repr

/-- Model of `H5FD_gds_truncate` (lines 1264-1317), POSIX branch: when `eoa`
and `eof` differ, `HDftruncate` the file to `eoa` bytes; on success set
`eof = eoa` and invalidate `pos`/`op`; on syscall failure return `FAIL` with
the handle untouched; when they agree, do nothing and succeed.  Modelled from
the spec: `H5F_addr_eq` (`H5Fprivate.h`, not under `src/`) is taken as plain
equality, per the spec sentence "if `eoa ≠ eof`, extend or shrink the
underlying file to exactly `eoa` bytes".  `ftruncOk` is the `HDftruncate`
outcome. -/
def H5FD_gds_truncate_model (f : H5FD_gds_t) (diskSize : Nat)
    (ftruncOk : Bool) : TruncOut :=
  if f.eoa = f.eof then ⟨SUCCEED, f, diskSize, false⟩
  else if ftruncOk then
    ⟨SUCCEED, { f with eof := f.eoa, pos := HADDR_UNDEF, op := .OP_UNKNOWN },
      f.eoa, true⟩
  else ⟨FAIL, f, diskSize, true⟩

/-- Result of a modelled `H5FD_gds_close`: return code and which teardown
steps were reached (attempted). -/
structure CloseOut where
  ret : Int
  deregAttempted : Bool
  directCloseAttempted : Bool
  buffersFreed : Bool
  fdCloseAttempted : Bool
  handleFreed : Bool
deriving DecidableEq, Repr

/-- Model of `H5FD_gds_close` (lines 597-652).  In source order:
`cuFileHandleDeregister` (return value ignored); the once-only
`cuFileDriverClose` guard, whose failure runs `HGOTO_ERROR` with return value
`NULL` (`0 = SUCCEED` in this `herr_t` function) and jumps to `done:`,
skipping everything after it; `HDclose(direct_fd)`, whose failure returns
`FAIL` and also jumps to `done:`; the `HDfree`s of the worker arrays;
`HDclose(fd)`, whose failure returns `FAIL` and jumps to `done:`; finally the
handle is released.  `driverClosed` is the static `cu_file_driver_closed`
flag; the other parameters are the outcomes of the respective calls. -/
def H5FD_gds_close_model (driverClosed driverCloseOk directCloseOk
    fdCloseOk : Bool) : CloseOut :=
  if ¬driverClosed ∧ ¬driverCloseOk then ⟨0, true, false, false, false, false⟩
  else if directCloseOk = false then ⟨FAIL, true, true, false, false, false⟩
  else if fdCloseOk = false then ⟨FAIL, true, true, true, true, false⟩
  else ⟨SUCCEED, true, true, true, true, true⟩

/-- Residency of the memory behind a pointer, as the CUDA runtime sees it:
a device allocation (with its device-side address), an ordinary host
allocation, or a pointer the query rejects. -/
inductive PtrKind where
  | device (a : Nat)
  | host
  | invalid
deriving DecidableEq, Repr

/-- Model of the external `cudaPointerGetAttributes` call: the pair is the
success status and the `devicePointer` field visible after the call.  For a
device allocation it reports the device address; for a plain host allocation
it succeeds with a NULL `devicePointer` (CUDA 11+ behaviour); for a rejected
pointer it reports an error without writing the caller's stack-allocated
attributes struct, whose `devicePointer` field keeps its previous
(indeterminate) value `prev`. -/
def cudaPointerGetAttributes (kind : PtrKind) (prev : Option Nat) :
    Bool × Option Nat :=
  match kind with
  | .device a => (true, some a)
  | .host => (true, none)
  | .invalid => (false, prev)

/-- Model of `is_device_pointer` (lines 863-876): call the attribute query,
discard its status, and return 1 iff `attributes.devicePointer != NULL`. -/
def is_device_pointer (kind : PtrKind) (prev : Option Nat) : Bool :=
  ((cudaPointerGetAttributes kind prev).2).isSome

/-- Sample handle right after opening an empty file: `eoa = eof = 0`,
`pos = HADDR_UNDEF`, `op = OP_UNKNOWN`, bulk transfers, 4K streaming blocks. -/
def f0 : H5FD_gds_t :=
  ⟨0, 0, HADDR_UNDEF, .OP_UNKNOWN, 0, 4096⟩

/-- Sample handle whose file has grown to 100 bytes. -/
def fShrink : H5FD_gds_t :=
  ⟨0, 100, HADDR_UNDEF, .OP_UNKNOWN, 0, 4096⟩

/-- Sample handle with 64 bytes allocated but only 8 bytes ever written. -/
def fEoa : H5FD_gds_t :=
  ⟨64, 8, HADDR_UNDEF, .OP_UNKNOWN, 0, 4096⟩

/-- Sample handle mid-session: `eoa = eof = 4096`, a cached position and a
last-operation tag from a preceding successful read. -/
def fMid : H5FD_gds_t :=
  ⟨4096, 4096, 128, .OP_READ, 2, 4096⟩

/-- Sample all-zero memory. -/
def zeros : Bytes := fun _ => 0

/-- Sample nontrivial memory contents. -/
def pattern7 : Bytes := fun i => (i + 7) % 256

/-- A worker's streaming loop moves exactly its assigned range: with a
positive block size and enough fuel, the loop equals one contiguous copy of
`size` bytes. -/
theorem workerLoopF_eq (block : Nat) (hb : 1 ≤ block) :
    ∀ fuel src dst srcOff dstOff size, size ≤ fuel →
      ∀ a, workerLoopF fuel src dst srcOff dstOff size block a
        = copyRange src dst srcOff dstOff size a := by
  intro fuel
  induction fuel with
  | zero =>
    intro src dst srcOff dstOff size hf a
    have hs : size = 0 := Nat.le_zero.mp hf
    simp only [workerLoopF, copyRange]
    rw [if_neg (show ¬(dstOff ≤ a ∧ a < dstOff + size) by omega)]
  | succ n ih =>
    intro src dst srcOff dstOff size hf a
    by_cases hs : size = 0
    · simp only [workerLoopF]
      rw [if_pos hs]
      simp only [copyRange]
      rw [if_neg (show ¬(dstOff ≤ a ∧ a < dstOff + size) by omega)]
    · simp only [workerLoopF]
      rw [if_neg hs]
      by_cases hbs : block < size
      · rw [if_pos hbs]
        rw [ih src _ _ _ _ (by omega) a]
        simp only [copyRange]
        by_cases h1 : dstOff + block ≤ a ∧ a < dstOff + block + (size - block)
        · rw [if_pos h1, if_pos (show dstOff ≤ a ∧ a < dstOff + size by omega)]
          congr 1
          omega
        · rw [if_neg h1]
          by_cases h2 : dstOff ≤ a ∧ a < dstOff + block
          · rw [if_pos h2, if_pos (show dstOff ≤ a ∧ a < dstOff + size by omega)]
          · rw [if_neg h2, if_neg (show ¬(dstOff ≤ a ∧ a < dstOff + size) by omega)]
      · rw [if_neg hbs]

/-- Pointwise specification of `workerLoop` with the canonical fuel. -/
theorem workerLoop_eq (src dst : Bytes) (srcOff dstOff size block : Nat)
    (hb : 1 ≤ block) (a : Nat) :
    workerLoop src dst srcOff dstOff size block a
      = copyRange src dst srcOff dstOff size a :=
  workerLoopF_eq block hb size src dst srcOff dstOff size (Nat.le_refl size) a

/-- Without an injected sub-read error the POSIX fallback read loop always
succeeds: a zero-byte sub-read is handled by zero-filling, never by failing. -/
theorem readLoop_ret (fsize : Nat) (disk : Bytes) :
    ∀ size idx buf bufPos addr,
      (posixReadLoop fsize disk none idx buf bufPos addr size).ret = SUCCEED := by
  intro size
  induction size using Nat.strong_induction_on with
  | _ size ih =>
    intro idx buf bufPos addr
    unfold posixReadLoop
    by_cases hs : size = 0
    · rw [dif_pos hs]
    · rw [dif_neg hs,
        if_neg (show ¬((none : Option Nat) = some idx) by simp)]
      by_cases hr : preadModel fsize addr (min size H5_POSIX_MAX_IO_BYTES) = 0
      · rw [dif_pos hr]
      · rw [dif_neg hr]
        exact ih _ (Nat.sub_lt (Nat.pos_of_ne_zero hs) (Nat.pos_of_ne_zero hr)) _ _ _ _

/-- Without an injected error, the fallback read loop leaves `addr` advanced
by exactly the number of bytes available below end of file, capped at the
requested size. -/
theorem readLoop_addr (fsize : Nat) (disk : Bytes) :
    ∀ size idx buf bufPos addr,
      (posixReadLoop fsize disk none idx buf bufPos addr size).addr
        = addr + min size (fsize - addr) := by
  intro size
  induction size using Nat.strong_induction_on with
  | _ size ih =>
    intro idx buf bufPos addr
    unfold posixReadLoop
    by_cases hs : size = 0
    · rw [dif_pos hs]
      show addr = addr + min size (fsize - addr)
      omega
    · rw [dif_neg hs,
        if_neg (show ¬((none : Option Nat) = some idx) by simp)]
      by_cases hr : preadModel fsize addr (min size H5_POSIX_MAX_IO_BYTES) = 0
      · rw [dif_pos hr]
        show addr = addr + min size (fsize - addr)
        simp only [preadModel, H5_POSIX_MAX_IO_BYTES] at hr
        omega
      · rw [dif_neg hr]
        rw [ih _ (Nat.sub_lt (Nat.pos_of_ne_zero hs) (Nat.pos_of_ne_zero hr))]
        simp only [preadModel, H5_POSIX_MAX_IO_BYTES] at hr ⊢
        omega

/-- When the request starts at or beyond end of file, the first sub-read
returns zero bytes and the loop zero-fills the whole destination range. -/
theorem readLoop_zero_fill (fsize : Nat) (disk : Bytes) (idx : Nat) (buf : Bytes)
    (bufPos addr size : Nat) (h : fsize ≤ addr) :
    ∀ i, bufPos ≤ i → i < bufPos + size →
      (posixReadLoop fsize disk none idx buf bufPos addr size).buf i = 0 := by
  intro i h1 h2
  have hs : size ≠ 0 := by omega
  have hp : preadModel fsize addr (min size H5_POSIX_MAX_IO_BYTES) = 0 := by
    simp only [preadModel]
    omega
  unfold posixReadLoop
  rw [dif_neg hs,
    if_neg (show ¬((none : Option Nat) = some idx) by simp),
    dif_pos hp]
  show (if bufPos ≤ i ∧ i < bufPos + size then 0 else buf i) = 0
  rw [if_pos ⟨h1, h2⟩]

/-- Without an injected sub-write error the POSIX fallback write loop always
succeeds. -/
theorem writeLoop_ret (buf : Bytes) :
    ∀ size idx disk bufPos addr,
      (posixWriteLoop none idx disk buf bufPos addr size).ret = SUCCEED := by
  intro size
  induction size using Nat.strong_induction_on with
  | _ size ih =>
    intro idx disk bufPos addr
    unfold posixWriteLoop
    by_cases hs : size = 0
    · rw [dif_pos hs]
    · rw [dif_neg hs,
        if_neg (show ¬((none : Option Nat) = some idx) by simp)]
      have hlt : size - min size H5_POSIX_MAX_IO_BYTES < size := by
        simp only [H5_POSIX_MAX_IO_BYTES]
        omega
      exact ih _ hlt _ _ _ _

/-- Without an injected error, the fallback write loop advances `addr` by the
full requested size. -/
theorem writeLoop_addr (buf : Bytes) :
    ∀ size idx disk bufPos addr,
      (posixWriteLoop none idx disk buf bufPos addr size).addr = addr + size := by
  intro size
  induction size using Nat.strong_induction_on with
  | _ size ih =>
    intro idx disk bufPos addr
    unfold posixWriteLoop
    by_cases hs : size = 0
    · rw [dif_pos hs]
      show addr = addr + size
      omega
    · rw [dif_neg hs,
        if_neg (show ¬((none : Option Nat) = some idx) by simp)]
      have hlt : size - min size H5_POSIX_MAX_IO_BYTES < size := by
        simp only [H5_POSIX_MAX_IO_BYTES]
        omega
      rw [ih _ hlt]
      simp only [H5_POSIX_MAX_IO_BYTES]
      omega

/-- The `done:` epilogue on a negative return value invalidates the cached
position and operation tag. -/
theorem gdsFinish_neg (r : Int) (f : H5FD_gds_t) (h : r < 0) :
    (gdsFinish r f).pos = HADDR_UNDEF ∧ (gdsFinish r f).op = .OP_UNKNOWN := by
  unfold gdsFinish
  rw [if_pos h]
  exact ⟨rfl, rfl⟩

/-- The `done:` epilogue on a non-negative return value leaves the handle
untouched. -/
theorem gdsFinish_nonneg (r : Int) (f : H5FD_gds_t) (h : ¬r < 0) :
    gdsFinish r f = f := by
  unfold gdsFinish
  rw [if_neg h]

/-- A 10-byte request with 3 configured threads collapses to a single worker:
the 4K-page floor reduces the effective count to `min 3 (1 + 9/4096) = 1`, and
that worker carries the whole request. -/
theorem gdsPartition_ten_three (addr : Nat) :
    gdsPartition addr 10 3 = [⟨addr, 0, 10⟩] := by
  simp only [gdsPartition, show effThreads 10 3 = 1 from by decide,
    show io_chunk 10 3 = 10 from by decide,
    show io_chunk_rem 10 3 = 0 from by decide,
    show List.range 1 = [0] from by decide, List.map_cons, List.map_nil]
  norm_num

/-- Claim C1: the partitioner is claimed to cover `[0, totalSize)` exactly for
every `totalSize > 0`, `threadCount > 0`.  Evaluating the source's partition
at `totalSize = 2^32 = 4294967296`, `threadCount = 1` (the claim's effective
count `min 1 (1 + (2^32-1)/4096) = 1` holds), the cast of `size` to 32-bit
`unsigned` in `io_chunk = (unsigned)size / (unsigned)io_threads` truncates the
size to 0: the single worker is assigned length 0 and the chunks cover
nothing, while `H5FD_gds_read`/`H5FD_gds_write` still return success. -/
theorem C1_truncated_partition :
    effThreads 4294967296 1 = 1 ∧
    (gdsPartition 0 4294967296 1).map TransferChunk.len = [0] ∧
    ((gdsPartition 0 4294967296 1).map TransferChunk.len).sum ≠ 4294967296 := by
  refine ⟨by decide, by decide, by decide⟩

/-- Claim C2: a `cuFileBufRegister` or `cuFileBufDeregister` failure on the
device path is claimed to make read/write return failure.  It does not: the
source invokes `HGOTO_ERROR(..., NULL, ...)` inside the `herr_t` functions, so
`ret_value` becomes `NULL = 0 = SUCCEED` and the call reports success (while
`FAIL = -1` is what every real failure path of the same functions returns). -/
theorem C2_register_failure_returns_succeed :
    (H5FD_gds_write_model f0 zeros pattern7 ⟨true, false, true, none⟩ 0 10).ret = SUCCEED ∧
    (H5FD_gds_write_model f0 zeros pattern7 ⟨true, true, false, none⟩ 0 10).ret = SUCCEED ∧
    (H5FD_gds_read_model f0 zeros 0 zeros zeros ⟨true, false, true, none⟩ 0 10).ret = SUCCEED ∧
    (H5FD_gds_read_model f0 zeros 0 zeros zeros ⟨true, true, false, none⟩ 0 10).ret = SUCCEED ∧
    SUCCEED ≠ FAIL := by
  refine ⟨rfl, rfl, rfl, rfl, by decide⟩

/-- Counterexample to claim C3: a fully successful accelerator-direct write
(classifier says device, register and deregister succeed) returns `SUCCEED`
yet leaves the Address-Space Tracker untouched: `lastOp` is still
`OP_UNKNOWN`, `eof` stays 0 although the new cursor would be 10, and `pos`
stays `HADDR_UNDEF` — the updates of lines 1231-1235 sit inside the host-path
`else` branch only. -/
theorem C3_device_path_no_update :
    (H5FD_gds_write_model f0 zeros pattern7 ⟨true, true, true, none⟩ 0 10).ret = SUCCEED ∧
    (H5FD_gds_write_model f0 zeros pattern7 ⟨true, true, true, none⟩ 0 10).file.op ≠ .OP_WRITE ∧
    (H5FD_gds_write_model f0 zeros pattern7 ⟨true, true, true, none⟩ 0 10).file.eof = 0 ∧
    (H5FD_gds_write_model f0 zeros pattern7 ⟨true, true, true, none⟩ 0 10).file.pos
      = HADDR_UNDEF := by
  refine ⟨rfl, by decide, rfl, rfl⟩

/-- Claim C3 as amended: only the fallback (host) path updates the tracker.
A successful fallback read sets `pos` to the final cursor and `lastOp` to
read; a successful fallback write sets `pos`, sets `lastOp` to write and
raises `eof` to the new cursor when it exceeds it; a successful
accelerator-direct read or write leaves the handle state (including `pos`,
`lastOp` and `eof`) completely unchanged. -/
theorem C3_tracker_updates (f : H5FD_gds_t) (disk : Bytes) (fsize : Nat)
    (dev host buf : Bytes) (addr size : Nat) (rOk dOk : Bool) (errAt : Option Nat)
    (hdef : H5F_addr_defined addr = true)
    (hovf : REGION_OVERFLOW addr size = false) :
    ((H5FD_gds_read_model f disk fsize dev host ⟨false, rOk, dOk, none⟩ addr size).ret
        = SUCCEED ∧
     (H5FD_gds_read_model f disk fsize dev host ⟨false, rOk, dOk, none⟩ addr size).file.pos
        = addr + min size (fsize - addr) ∧
     (H5FD_gds_read_model f disk fsize dev host ⟨false, rOk, dOk, none⟩ addr size).file.op
        = .OP_READ) ∧
    ((H5FD_gds_write_model f disk buf ⟨false, rOk, dOk, none⟩ addr size).ret = SUCCEED ∧
     (H5FD_gds_write_model f disk buf ⟨false, rOk, dOk, none⟩ addr size).file.pos
        = addr + size ∧
     (H5FD_gds_write_model f disk buf ⟨false, rOk, dOk, none⟩ addr size).file.op
        = .OP_WRITE ∧
     (H5FD_gds_write_model f disk buf ⟨false, rOk, dOk, none⟩ addr size).file.eof
        = max f.eof (addr + size)) ∧
    ((H5FD_gds_read_model f disk fsize dev host ⟨true, true, true, errAt⟩ addr size).ret
        = SUCCEED ∧
     (H5FD_gds_read_model f disk fsize dev host ⟨true, true, true, errAt⟩ addr size).file
        = f) ∧
    ((H5FD_gds_write_model f disk buf ⟨true, true, true, errAt⟩ addr size).ret = SUCCEED ∧
     (H5FD_gds_write_model f disk buf ⟨true, true, true, errAt⟩ addr size).file = f) := by
  have hret := readLoop_ret fsize disk size 0 host 0 addr
  have haddr := readLoop_addr fsize disk size 0 host 0 addr
  have hwret := writeLoop_ret buf size 0 disk 0 addr
  have hwaddr := writeLoop_addr buf size 0 disk 0 addr
  constructor
  · refine ⟨?_, ?_, ?_⟩ <;>
      simp [H5FD_gds_read_model, gdsReadCore, hdef, hovf, hret, haddr, gdsFinish,
        SUCCEED]
  constructor
  · refine ⟨?_, ?_, ?_, ?_⟩ <;>
      simp [H5FD_gds_write_model, gdsWriteCore, hdef, hovf, hwret, hwaddr, gdsFinish,
        SUCCEED] <;>
      (try (split <;> omega))
  constructor
  · refine ⟨?_, ?_⟩ <;>
      simp [H5FD_gds_read_model, gdsReadCore, hdef, hovf, gdsFinish, SUCCEED]
  · refine ⟨?_, ?_⟩ <;>
      simp [H5FD_gds_write_model, gdsWriteCore, hdef, hovf, gdsFinish, SUCCEED]


/-- Witness for the amended claim C3: a successful 4-byte fallback write at
address 0 on a fresh handle sets `pos = 4`, `lastOp = OP_WRITE` and raises
`eof` to the new cursor. -/
theorem C3_tracker_updates_witness :
    (H5FD_gds_write_model f0 pattern7 pattern7 ⟨false, true, true, none⟩ 0 4).ret
      = SUCCEED ∧
    (H5FD_gds_write_model f0 pattern7 pattern7 ⟨false, true, true, none⟩ 0 4).file.pos
      = 0 + 4 ∧
    (H5FD_gds_write_model f0 pattern7 pattern7 ⟨false, true, true, none⟩ 0 4).file.op
      = .OP_WRITE ∧
    (H5FD_gds_write_model f0 pattern7 pattern7 ⟨false, true, true, none⟩ 0 4).file.eof
      = max f0.eof (0 + 4) :=
  (C3_tracker_updates f0 pattern7 2 zeros zeros pattern7 0 4 true true none
    (by decide) (by decide)).2.1

/-- Claim C4: every path of `H5FD_gds_read` / `H5FD_gds_write` that returns a
negative (failing) `herr_t` passes through the `done:` epilogue, which sets
`pos = HADDR_UNDEF` and `op = OP_UNKNOWN`, for any handle state, buffers,
classifier verdict, cuFile outcomes and injected POSIX errors. -/
theorem C4_failure_resets (f : H5FD_gds_t) (disk : Bytes) (fsize : Nat)
    (dev host buf : Bytes) (e : GdsEnv) (addr size : Nat) :
    ((H5FD_gds_read_model f disk fsize dev host e addr size).ret < 0 →
      (H5FD_gds_read_model f disk fsize dev host e addr size).file.pos = HADDR_UNDEF ∧
      (H5FD_gds_read_model f disk fsize dev host e addr size).file.op = .OP_UNKNOWN) ∧
    ((H5FD_gds_write_model f disk buf e addr size).ret < 0 →
      (H5FD_gds_write_model f disk buf e addr size).file.pos = HADDR_UNDEF ∧
      (H5FD_gds_write_model f disk buf e addr size).file.op = .OP_UNKNOWN) := by
  constructor
  · intro h
    exact gdsFinish_neg _ _ h
  · intro h
    exact gdsFinish_neg _ _ h

/-- Witness for claim C4: a read at the undefined address fails and leaves the
cached position undefined and the operation tag unknown. -/
theorem C4_failure_resets_witness :
    (H5FD_gds_read_model f0 zeros 0 zeros zeros ⟨false, true, true, none⟩
        HADDR_UNDEF 4).file.pos = HADDR_UNDEF ∧
    (H5FD_gds_read_model f0 zeros 0 zeros zeros ⟨false, true, true, none⟩
        HADDR_UNDEF 4).file.op = .OP_UNKNOWN :=
  (C4_failure_resets f0 zeros 0 zeros zeros zeros ⟨false, true, true, none⟩
    HADDR_UNDEF 4).1 (by decide)

/-- Claim C5: on the fallback path with no I/O error, the read call always
succeeds (a zero-byte sub-read is not an error), and when the requested range
starts at or beyond the current end of file — in particular beyond the last
byte ever written but below `eoa` — the destination buffer comes back
all-zero. -/
theorem C5_eof_zero_fill (f : H5FD_gds_t) (disk : Bytes) (fsize : Nat)
    (dev host : Bytes) (addr size : Nat) (rOk dOk : Bool)
    (hdef : H5F_addr_defined addr = true)
    (hovf : REGION_OVERFLOW addr size = false)
    (heoa : addr + size ≤ f.eoa) :
    (H5FD_gds_read_model f disk fsize dev host ⟨false, rOk, dOk, none⟩ addr size).ret
      = SUCCEED ∧
    (fsize ≤ addr → ∀ i, i < size →
      (H5FD_gds_read_model f disk fsize dev host ⟨false, rOk, dOk, none⟩ addr size).host i
        = 0) := by
  have hret := readLoop_ret fsize disk size 0 host 0 addr
  constructor
  · simp [H5FD_gds_read_model, gdsReadCore, hdef, hovf, hret, gdsFinish, SUCCEED]
  · intro hf i hi
    have hz := readLoop_zero_fill fsize disk 0 host 0 addr size hf i (Nat.zero_le i)
      (by omega)
    simp [H5FD_gds_read_model, gdsReadCore, hdef, hovf, hret, SUCCEED, hz]

/-- Witness for claim C5: reading 4 bytes at address 16 of a handle whose file
holds 8 bytes (with 64 bytes allocated) succeeds and yields zero bytes. -/
theorem C5_eof_zero_fill_witness :
    (H5FD_gds_read_model fEoa pattern7 8 zeros zeros ⟨false, true, true, none⟩ 16 4).ret
      = SUCCEED ∧
    (H5FD_gds_read_model fEoa pattern7 8 zeros zeros ⟨false, true, true, none⟩ 16 4).host 2
      = 0 := by
  have h := C5_eof_zero_fill fEoa pattern7 8 zeros zeros 16 4 true true
    (by decide) (by decide) (by decide)
  exact ⟨h.1, h.2 (by decide) 2 (by decide)⟩

/-- Claim C6: `setAllocatedEnd v` followed by a successful truncate makes
`getPhysicalEnd` return `v`, for every handle and every `v` (growing and
shrinking alike); and whenever the new `eoa` differs from `eof`, the truncate
resizes the backing file to exactly `eoa` bytes and invalidates `pos` and
`op`. -/
theorem C6_set_eoa_truncate (f : H5FD_gds_t) (diskSize v : Nat) :
    (H5FD_gds_truncate_model (H5FD_gds_set_eoa_model f v) diskSize true).ret
      = SUCCEED ∧
    H5FD_gds_get_eof_model
      (H5FD_gds_truncate_model (H5FD_gds_set_eoa_model f v) diskSize true).file = v ∧
    (v ≠ f.eof →
      (H5FD_gds_truncate_model (H5FD_gds_set_eoa_model f v) diskSize true).diskSize
        = v ∧
      (H5FD_gds_truncate_model (H5FD_gds_set_eoa_model f v) diskSize true).ftruncCalled
        = true ∧
      (H5FD_gds_truncate_model (H5FD_gds_set_eoa_model f v) diskSize true).file.pos
        = HADDR_UNDEF ∧
      (H5FD_gds_truncate_model (H5FD_gds_set_eoa_model f v) diskSize true).file.op
        = .OP_UNKNOWN) := by
  unfold H5FD_gds_truncate_model H5FD_gds_set_eoa_model H5FD_gds_get_eof_model
  by_cases h : v = f.eof
  · simp [h]
  · simp [h]

/-- Witness for claim C6: growing a fresh handle to 4096 bytes and shrinking a
100-byte handle to 10 bytes both land `getPhysicalEnd` (and the file size) on
the value set by `setAllocatedEnd`. -/
theorem C6_set_eoa_truncate_witness :
    H5FD_gds_get_eof_model
      (H5FD_gds_truncate_model (H5FD_gds_set_eoa_model f0 4096) 0 true).file = 4096 ∧
    (H5FD_gds_truncate_model (H5FD_gds_set_eoa_model f0 4096) 0 true).diskSize = 4096 ∧
    H5FD_gds_get_eof_model
      (H5FD_gds_truncate_model (H5FD_gds_set_eoa_model fShrink 10) 100 true).file = 10 ∧
    (H5FD_gds_truncate_model (H5FD_gds_set_eoa_model fShrink 10) 100 true).diskSize
      = 10 :=
  ⟨(C6_set_eoa_truncate f0 0 4096).2.1,
   ((C6_set_eoa_truncate f0 0 4096).2.2 (by decide)).1,
   (C6_set_eoa_truncate fShrink 100 10).2.1,
   ((C6_set_eoa_truncate fShrink 100 10).2.2 (by decide)).1⟩

/-- Counterexample to claim C7: for `S = 10` and `threadCount = 3` the
partitioner does not produce lengths 3, 3, 4 — the 4K-page floor first
reduces the effective worker count to `min 3 (1 + 9/4096) = 1`, so the
partition is a single chunk of length 10. -/
theorem C7_partition_lengths_counterexample :
    (gdsPartition 0 10 3).map TransferChunk.len ≠ [3, 3, 4] ∧
    (gdsPartition 0 10 3).map TransferChunk.len = [10] ∧
    (gdsPartition 0 10 3).length = 1 := by
  refine ⟨by decide, by decide, by decide⟩

/-- Claim C7 as amended: for `S = 10` and configured thread count 3 the
partitioned transfer uses a single worker of length 10 (not three workers of
lengths 3, 3 and 4), and writing a 10-byte device buffer through the chunked
engine and reading it back through the chunked engine returns the same bytes,
for every disk, buffer contents, address and positive streaming block size. -/
theorem C7_single_worker_roundtrip (disk dev dev2 : Bytes) (addr block : Nat)
    (hb : 1 ≤ block) :
    (gdsPartition addr 10 3).map TransferChunk.len = [10] ∧
    ∀ j, j < 10 →
      gdsDeviceRead (gdsDeviceWrite disk dev addr 10 3 block) dev2 addr 10 3 block j
        = dev j := by
  constructor
  · rw [gdsPartition_ten_three]
    rfl
  · intro j hj
    unfold gdsDeviceRead gdsDeviceWrite
    rw [gdsPartition_ten_three]
    simp only [List.foldl_cons, List.foldl_nil]
    rw [workerLoop_eq _ _ _ _ _ _ hb j]
    simp only [copyRange]
    rw [if_pos (show 0 ≤ j ∧ j < 0 + 10 by omega)]
    rw [workerLoop_eq _ _ _ _ _ _ hb]
    simp only [copyRange]
    rw [if_pos (show addr ≤ addr + (j - 0) ∧ addr + (j - 0) < addr + 10 by omega)]
    congr 1
    omega

/-- Witness for the amended claim C7: with address 3 and block size 4, byte 9
of the round-tripped buffer matches the original. -/
theorem C7_single_worker_roundtrip_witness :
    (gdsPartition 3 10 3).map TransferChunk.len = [10] ∧
    gdsDeviceRead (gdsDeviceWrite zeros pattern7 3 10 3 4) zeros 3 10 3 4 9
      = pattern7 9 := by
  have h := C7_single_worker_roundtrip zeros pattern7 zeros 3 4 (by decide)
  exact ⟨h.1, h.2 9 (by decide)⟩

/-- Counterexample to claim C8: when `HDclose(direct_fd)` fails (with the
driver-close guard already satisfied), the close aborts immediately — the
primary descriptor close and the handle release are never attempted — and the
direct descriptor's failure, not only the primary's, is reported as the
overall failure of close. -/
theorem C8_direct_close_abort_counterexample :
    (H5FD_gds_close_model true true false true).directCloseAttempted = true ∧
    (H5FD_gds_close_model true true false true).fdCloseAttempted = false ∧
    (H5FD_gds_close_model true true false true).handleFreed = false ∧
    (H5FD_gds_close_model true true false true).ret = FAIL := by
  decide

/-- Claim C8 as amended: during close, the accelerator-handle deregistration
is always attempted and its result is ignored (it can never fail the close);
each of the other fallible steps aborts the close immediately on failure,
skipping all remaining teardown: a `cuFileDriverClose` failure returns
`SUCCEED` (the `NULL` slip) while skipping both descriptor closes and the
release; a direct- or primary-descriptor close failure skips the rest and is
reported as the overall failure of close; only when every step succeeds are
all of them performed. -/
theorem C8_close_teardown (a b c d : Bool) :
    (H5FD_gds_close_model a b c d).deregAttempted = true ∧
    (a = false → b = false →
      H5FD_gds_close_model a b c d = ⟨0, true, false, false, false, false⟩) ∧
    ((a = true ∨ b = true) → c = false →
      H5FD_gds_close_model a b c d = ⟨FAIL, true, true, false, false, false⟩) ∧
    ((a = true ∨ b = true) → c = true → d = false →
      H5FD_gds_close_model a b c d = ⟨FAIL, true, true, true, true, false⟩) ∧
    ((a = true ∨ b = true) → c = true → d = true →
      H5FD_gds_close_model a b c d = ⟨SUCCEED, true, true, true, true, true⟩) := by
  cases a <;> cases b <;> cases c <;> cases d <;> decide

/-- Witness for the amended claim C8: the direct-descriptor close failure
scenario, instantiated. -/
theorem C8_close_teardown_witness :
    H5FD_gds_close_model true true false true = ⟨FAIL, true, true, false, false, false⟩ :=
  (C8_close_teardown true true false true).2.2.1 (Or.inl rfl) rfl

/-- Counterexample to claim C9: the classifier ignores the query's error
status, so when the attribute query rejects the pointer and the uninitialised
`devicePointer` field of the stack-allocated attributes struct happens to hold
a non-null leftover value, `is_device_pointer` reports the pointer as device
resident — the claimed "any runtime query error is treated as not device
resident" does not hold unconditionally. -/
theorem C9_query_error_counterexample :
    is_device_pointer .invalid (some 4096) = true := by
  decide

/-- Claim C9 as amended: `is_device_pointer` never fails its caller (it is a
total Boolean function) and returns true iff the `devicePointer` field visible
after the query is non-null: true for device allocations, false for host
allocations (whose query succeeds with a null `devicePointer`), and — because
the error status is discarded — on an erroring query its verdict equals
whether the unwritten attributes field happened to be non-null, so an error is
treated as "not device resident" exactly when that field is null. -/
theorem C9_classifier_characterization :
    (∀ a prev, is_device_pointer (.device a) prev = true) ∧
    (∀ prev, is_device_pointer .host prev = false) ∧
    (∀ prev, is_device_pointer .invalid prev = prev.isSome) :=
  ⟨fun _ _ => rfl, fun _ => rfl, fun _ => rfl⟩

/-- Claim C10: when `eoa = eof`, truncate takes the early-out branch: it
returns `SUCCEED`, issues no filesystem call, leaves the file size alone and
leaves every handle field — including `eof`, the cached `pos` and the
operation tag `op` — exactly as they were (in particular `pos`/`op` are not
invalidated). -/
theorem C10_truncate_noop (f : H5FD_gds_t) (diskSize : Nat) (ftruncOk : Bool)
    (h : f.eoa = f.eof) :
    H5FD_gds_truncate_model f diskSize ftruncOk = ⟨SUCCEED, f, diskSize, false⟩ := by
  unfold H5FD_gds_truncate_model
  rw [if_pos h]

/-- Witness for claim C10: a mid-session handle with `eoa = eof = 4096`, a
cached position 128 and a read tag is returned untouched by truncate. -/
theorem C10_truncate_noop_witness :
    H5FD_gds_truncate_model fMid 4096 true = ⟨SUCCEED, fMid, 4096, false⟩ :=
  C10_truncate_noop fMid 4096 true (by decide)

end H5FDgds
